import Mathlib

/-!
Verification of the hypha connection/routing/eventing fabric.

This file gives a shallow embedding, in Lean 4, of the parts of the
repository that the checked properties talk about:

* `hypha/core/__init__.py` — `RedisRPCConnection` (`emit_message`,
  `on_message`, `disconnect`) and `RedisEventBus` (`emit`, the
  `_subscribe_redis` dispatch loop);
* `hypha/websocket.py` — `WebsocketServer.authenticate_user`,
  `setup_workspace_and_permissions`, `check_client`,
  `handle_websocket_connection`, `disconnect`;
* `hypha/core/interface.py` — `parse_user`.

Modelling conventions.  A msgpack-encoded frame is represented by its
decoded form: the leading header map as an association list
`List (String × MsgVal)` plus the raw tail bytes `List Nat` that follow
the header (the code appends `data[pos:]` verbatim after repacking the
header, so the tail is carried through unchanged as a list of bytes).
The msgpack, json and utf-8 codecs are third-party/stdlib libraries and
are not re-verified here; json/utf-8 payloads travel in a tagged
`WireData` value recording which encoder produced the broker bytes.
Python string operations `in`, `startswith`, slicing and `split` are
modelled on `List Char`.  Functions from modules that are not part of
the six source files (`hypha/core/auth.py`, `hypha/core/store.py`) are
abstracted as fields of a `HubEnv` record and universally quantified.
Async effects are modelled by explicit state passing / result records;
exceptions by `Except String`.
-/

/-- Model of the Python expression `c in s` for a character `c` and a
string `s`. -/
def strHas (s : String) (c : Char) : Bool := decide (c ∈ s.toList)

/-- Boolean prefix test on character lists (model of `str.startswith`). -/
def listHasPre : List Char → List Char → Bool
  | [], _ => true
  | _ :: _, [] => false
  | a :: as, b :: bs => if a = b then listHasPre as bs else false

/-- Model of the Python expression `s.startswith(p)`. -/
def strPre (p s : String) : Bool := listHasPre p.toList s.toList

/-- Boolean substring (infix) test on character lists. -/
def listInfixOf (pat : List Char) : List Char → Bool
  | [] => pat.isEmpty
  | b :: bs => listHasPre pat (b :: bs) || listInfixOf pat bs

/-- Model of the Python expression `pat in s` for strings. -/
def pySubstr (pat s : String) : Bool := listInfixOf pat.toList s.toList

/-- Model of the Python slice `s[n:]`. -/
def strDropN (s : String) (n : Nat) : String := ⟨s.toList.drop n⟩

/-- Python truthiness of an optional string (`None` and `""` are falsy). -/
def pyTruthy : Option String → Bool
  | none => false
  | some s => !(s == "")

/-- Embedding of the `UserInfo` pydantic model of `hypha/core/__init__.py`
(the fields the checked code reads; `model_dump()` snapshots are
represented by the same record). -/
structure UserModel where
  id : String
  roles : List String
  is_anonymous : Bool
  email : Option String := none
  parent : Option String := none
  scopes : Option (List String) := none
  expires_at : Option Nat := none
deriving DecidableEq

/-- Values stored in a decoded msgpack header map. -/
inductive MsgVal where
  | str : String → MsgVal
  | user : UserModel → MsgVal
  | bin : List Nat → MsgVal
  | num : Int → MsgVal
deriving DecidableEq

/-- Lookup of a key in a decoded header map (Python `dict` access:
first — and in a real dict only — binding wins). -/
def lookupKey : List (String × MsgVal) → String → Option MsgVal
  | [], _ => none
  | (k, v) :: rest, key => if k = key then some v else lookupKey rest key

/-- Model of a Python `dict` update of a single key: replace the binding
in place when the key is present, append it otherwise. -/
def setKey : List (String × MsgVal) → String → MsgVal → List (String × MsgVal)
  | [], k, v => [(k, v)]
  | (k0, v0) :: rest, k, v =>
    if k0 = k then (k, v) :: rest else (k0, v0) :: setKey rest k v

/-- Decoded form of a msgpack frame: the leading header map and the raw
bytes that follow it (`data[pos:]` in the source). -/
structure Frame where
  header : List (String × MsgVal)
  tail : List Nat
deriving DecidableEq

/-- Argument of `RedisRPCConnection.emit_message`, whose declared Python
type is `Union[dict, bytes]`. -/
inductive RpcData where
  | bytesData : Frame → RpcData
  | dictData : List (String × MsgVal) → RpcData
deriving DecidableEq

/-- State of a `RedisRPCConnection` (`hypha/core/__init__.py`, lines
205-295).  `subs` lists the event-bus channels on which the message
handler is currently registered; `disconnectCallbackFires` counts
invocations of the registered disconnection callback. -/
structure RedisRPCConnection where
  workspace : String
  client_id : String
  user_info : UserModel
  stop : Bool
  hasHandleMessage : Bool
  subs : List String
  hasDisconnectHandler : Bool
  disconnectCallbackFires : Nat
deriving DecidableEq

/-- Embedding of `RedisRPCConnection.__init__`: asserts
`workspace and "/" not in client_id` and starts with no handlers, no
subscriptions and the stop flag cleared. -/
def RedisRPCConnection.init (ws cid : String) (u : UserModel) :
    Except String RedisRPCConnection :=
  if ws != "" && !(strHas cid '/') then
    Except.ok
      { workspace := ws, client_id := cid, user_info := u, stop := false,
        hasHandleMessage := false, subs := [], hasDisconnectHandler := false,
        disconnectCallbackFires := 0 }
  else
    Except.error "Invalid workspace or client ID"

/-- Embedding of `RedisRPCConnection.on_disconnected`. -/
def RedisRPCConnection.on_disconnected (conn : RedisRPCConnection) :
    RedisRPCConnection :=
  { conn with hasDisconnectHandler := true }

/-- Embedding of `RedisRPCConnection.on_message`: registers the handler
on the direct channel and on the workspace broadcast channel. -/
def RedisRPCConnection.on_message (conn : RedisRPCConnection) :
    RedisRPCConnection :=
  { conn with
    hasHandleMessage := true,
    subs := conn.subs ++
      [conn.workspace ++ "/" ++ conn.client_id ++ ":msg",
       conn.workspace ++ "/*:msg"] }

/-- Embedding of lines 266-281 of `hypha/core/__init__.py`: compute the
`ws` field, update the header keys `ws`, `to`, `from`, `user` (in the
order of the Python dict literal), repack and publish on
`{target_id}:msg` with the original tail appended verbatim. -/
def RedisRPCConnection.publishRewritten (conn : RedisRPCConnection)
    (target_id : String) (f : Frame) : String × Frame :=
  let source_id := conn.workspace ++ "/" ++ conn.client_id
  let wsVal :=
    if conn.workspace = "*" then (target_id.splitOn "/").headD ""
    else conn.workspace
  let h1 := setKey f.header "ws" (MsgVal.str wsVal)
  let h2 := setKey h1 "to" (MsgVal.str target_id)
  let h3 := setKey h2 "from" (MsgVal.str source_id)
  let h4 := setKey h3 "user" (MsgVal.user conn.user_info)
  (target_id ++ ":msg", { header := h4, tail := f.tail })

/-- Embedding of `RedisRPCConnection.emit_message`.  Returns the
channel and frame handed to `self._event_bus.emit`, or the error
raised.  The `assert isinstance(data, bytes)` check comes first, then
the closed-connection check, then header decoding and the target
normalization with its (nested) workspace-manager guard. -/
def RedisRPCConnection.emit_message (conn : RedisRPCConnection)
    (data : RpcData) : Except String (String × Frame) :=
  match data with
  | RpcData.dictData _ => Except.error "Data must be bytes"
  | RpcData.bytesData f =>
    if conn.stop then
      Except.error ("Connection has already been closed (client: " ++
        conn.workspace ++ "/" ++ conn.client_id ++ ")")
    else
      match lookupKey f.header "to" with
      | some (MsgVal.str t0) =>
        if strHas t0 '/' = false then
          if pySubstr "/workspace-manager-" t0 then
            Except.error ("Invalid target ID: " ++ t0 ++
              ", it appears that the target is a workspace manager (target_id should starts with */)")
          else
            Except.ok (conn.publishRewritten (conn.workspace ++ "/" ++ t0) f)
        else
          Except.ok (conn.publishRewritten t0 f)
      | _ =>
        Except.error "TypeError: the to field of the header is not a string"

/-- The normalized target of the spec: `T` when it contains `/`,
otherwise `W/T`. -/
def normalizeTarget (w t : String) : String :=
  if strHas t '/' then t else w ++ "/" ++ t

/-- Embedding of `RedisRPCConnection.disconnect`: set the stop flag,
unsubscribe the message handler from both channels when one is set,
clear the handler, and invoke the disconnection callback when one is
registered (the handler reference is never cleared by the source). -/
def RedisRPCConnection.disconnect (conn : RedisRPCConnection) :
    RedisRPCConnection :=
  let c1 : RedisRPCConnection := { conn with stop := true }
  let c2 : RedisRPCConnection :=
    if c1.hasHandleMessage then
      { c1 with subs := c1.subs.filter (fun ch =>
          !(ch == c1.workspace ++ "/" ++ c1.client_id ++ ":msg") &&
          !(ch == c1.workspace ++ "/*:msg")) }
    else c1
  let c3 : RedisRPCConnection := { c2 with hasHandleMessage := false }
  if c3.hasDisconnectHandler then
    { c3 with disconnectCallbackFires := c3.disconnectCallbackFires + 1 }
  else c3

/-- JSON values (payload shape of `d:`-kind federated events). -/
inductive JVal where
  | jnull : JVal
  | jbool : Bool → JVal
  | jnum : Int → JVal
  | jstr : String → JVal
  | jarr : List JVal → JVal
  | jobj : List (String × JVal) → JVal

/-- Payload accepted by `RedisEventBus.emit`: a Python `dict` (modelled
by its JSON object fields), a `str`, `bytes`, or `None`. -/
inductive EmitData where
  | dict : List (String × JVal) → EmitData
  | str : String → EmitData
  | bytes : List Nat → EmitData
  | noneV : EmitData

/-- Broker payload tagged by the encoder that produced it: `json.dumps`
for dicts, utf-8 for strings, raw for bytes.  The codecs themselves are
stdlib and stay abstract. -/
inductive WireData where
  | jsonOf : List (String × JVal) → WireData
  | utf8Of : String → WireData
  | raw : List Nat → WireData

/-- Result of one call to `RedisEventBus.emit`: whether the local bus
was dispatched, what was published to the broker, and the error raised,
if any.  The local dispatch happens before the kind inference, so it is
recorded even on the failing paths. -/
structure EmitOutcome where
  localDispatched : Bool
  published : Option (String × WireData)
  error : Option String

/-- Embedding of `RedisEventBus.emit` (lines 377-410): dispatch locally,
infer the payload kind (`d:` for dicts, `s:` for strings, `b:`
otherwise with an `assert data and isinstance(data, (str, bytes))`
guard), and publish `event:<kind><event_name>` to the broker. -/
def RedisEventBus.emit (event_name : String) (data : EmitData) : EmitOutcome :=
  match data with
  | EmitData.dict j =>
    { localDispatched := true,
      published := some ("event:" ++ "d:" ++ event_name, WireData.jsonOf j),
      error := none }
  | EmitData.str s =>
    { localDispatched := true,
      published := some ("event:" ++ "s:" ++ event_name, WireData.utf8Of s),
      error := none }
  | EmitData.bytes b =>
    if b = [] then
      { localDispatched := true, published := none,
        error := some "Data must be a string or bytes" }
    else
      { localDispatched := true,
        published := some ("event:" ++ "b:" ++ event_name, WireData.raw b),
        error := none }
  | EmitData.noneV =>
    { localDispatched := true, published := none,
      error := some "Data must be a string or bytes" }

/-- Embedding of the per-message dispatch of
`RedisEventBus._subscribe_redis` (lines 421-438): match the channel
prefix `event:b:` / `event:d:` / `event:s:` in that order, decode the
payload for the kind, and emit exactly one event named `channel[8:]` on
the remote bus; unknown channels (and broker bytes that were not
produced by the matching encoder, whose decode is outside this model)
dispatch nothing. -/
def RedisEventBus.dispatch_redis_message (channel : String) (data : WireData) :
    Option (String × EmitData) :=
  if strPre "event:b:" channel then
    match data with
    | WireData.raw b => some (strDropN channel 8, EmitData.bytes b)
    | _ => none
  else if strPre "event:d:" channel then
    match data with
    | WireData.jsonOf j => some (strDropN channel 8, EmitData.dict j)
    | _ => none
  else if strPre "event:s:" channel then
    match data with
    | WireData.utf8Of s => some (strDropN channel 8, EmitData.str s)
    | _ => none
  else none

/-- Payloads on which `RedisEventBus.emit` does not trip its assertion:
dicts, strings, and non-empty (truthy) bytes. -/
def EmitData.wellformed : EmitData → Prop
  | EmitData.dict _ => True
  | EmitData.str _ => True
  | EmitData.bytes b => b ≠ []
  | EmitData.noneV => False

/-- External collaborators of `hypha/websocket.py` and
`hypha/core/interface.py` that live in modules outside the six source
files (`hypha/core/auth.py`, `hypha/core/store.py`) or are
nondeterministic (`shortuuid.uuid()`).  They are kept abstract: every
theorem below is universally quantified over them. -/
structure HubEnv where
  parse_reconnection_token : String → Except String (UserModel × String × String)
  parse_token : String → Except String UserModel
  freshId : String
  workspace_exists : String → Bool
  check_permission : UserModel → String → Bool
  client_exists : String → String → Bool
  client_active : String → String → Bool

/-- The anonymous user synthesized by `authenticate_user` when neither
token is given. -/
def anonymousUser (freshId : String) : UserModel :=
  { id := freshId, roles := [], is_anonymous := true, email := none,
    parent := none, scopes := some [], expires_at := none }

/-- Embedding of `WebsocketServer.authenticate_user` (lines 137-167).
A truthy `reconnection_token` is parsed to `(user, ws, cid)`; a truthy
supplied workspace different from `ws`, or a client id different from
`cid`, raises (wrapped as `Authentication error: ...` by the enclosing
`except`).  Otherwise a truthy `token` is parsed, or an anonymous user
is synthesized; the supplied workspace is returned unchanged. -/
def WebsocketServer.authenticate_user (env : HubEnv)
    (token reconnection_token : Option String) (client_id : String)
    (workspace : Option String) : Except String (UserModel × Option String) :=
  if pyTruthy reconnection_token then
    match env.parse_reconnection_token (reconnection_token.getD "") with
    | Except.error e => Except.error ("Authentication error: " ++ e)
    | Except.ok (u, ws, cid) =>
      if pyTruthy workspace && !(workspace.getD "" == ws) then
        Except.error "Authentication error: Workspace mismatch, disconnecting"
      else if !(cid == client_id) then
        Except.error "Authentication error: Client id mismatch, disconnecting"
      else
        Except.ok (u, some ws)
  else
    if pyTruthy token then
      match env.parse_token (token.getD "") with
      | Except.error e => Except.error ("Authentication error: " ++ e)
      | Except.ok u => Except.ok (u, workspace)
    else
      Except.ok (anonymousUser env.freshId, workspace)

/-- Workspace record handed to `store.register_workspace` by
`setup_workspace_and_permissions`. -/
structure RegisteredWorkspace where
  name : String
  persistent : Bool
  owners : List String
  visibility : String
  read_only : Bool
deriving DecidableEq

/-- Outcome of `setup_workspace_and_permissions`: the returned workspace
name or the raised error, together with the workspace registration the
call performed, if any (registration happens before the permission
check, so it is recorded even when the permission check then fails). -/
structure SetupResult where
  outcome : Except String String
  created : Option RegisteredWorkspace

/-- Embedding of `WebsocketServer.setup_workspace_and_permissions`
(lines 169-201): default the workspace to `user.id` when it is `None`,
assert it is not `*`, create it (persistent unless the user is
anonymous or has the `temporary-test-user` role, read-only iff
anonymous) only when it does not exist and equals `user.id`, then check
the permission. -/
def WebsocketServer.setup_workspace_and_permissions (env : HubEnv)
    (u : UserModel) (workspace : Option String) : SetupResult :=
  let ws := match workspace with
    | none => u.id
    | some w => w
  if ws = "*" then
    { outcome := Except.error "Dynamic workspace is not allowed for this endpoint",
      created := none }
  else
    let persistent := !u.is_anonymous && !(u.roles.contains "temporary-test-user")
    if env.workspace_exists ws then
      if env.check_permission u ws then
        { outcome := Except.ok ws, created := none }
      else
        { outcome := Except.error ("Permission denied for workspace: " ++ ws),
          created := none }
    else
      if ws = u.id then
        let reg : RegisteredWorkspace :=
          { name := ws, persistent := persistent, owners := [u.id],
            visibility := "protected", read_only := u.is_anonymous }
        if env.check_permission u ws then
          { outcome := Except.ok ws, created := some reg }
        else
          { outcome := Except.error ("Permission denied for workspace: " ++ ws),
            created := some reg }
      else
        { outcome := Except.error
            "User can only connect to a pre-existing workspace or their own workspace",
          created := none }

/-- Embedding of `WebsocketServer.check_client` (lines 118-135): an
existing client that still answers the ping is a hard conflict; an
existing inactive client is deleted and the handshake continues. -/
def WebsocketServer.check_client (env : HubEnv) (client_id workspace : String) :
    Except String Unit :=
  if env.client_exists client_id workspace then
    if env.client_active client_id workspace then
      Except.error ("Client already exists and is active: " ++ workspace ++
        "/" ++ client_id)
    else
      Except.ok ()
  else
    Except.ok ()

/-- Error frame sent by `WebsocketServer.disconnect` before closing:
`json.dumps({"error": reason, "success": False})`. -/
structure ErrorFrame where
  error : String
  success : Bool
deriving DecidableEq

/-- Result of one handshake attempt on the websocket endpoint. -/
inductive HandshakeOutcome where
  | success : String → String → UserModel → HandshakeOutcome
  | closed : Nat → ErrorFrame → HandshakeOutcome
deriving DecidableEq

/-- Embedding of `WebsocketServer.handle_websocket_connection` (lines
83-116): a missing client id closes with code 1003 and an unprefixed
reason; any exception out of authentication, workspace setup or the
client check closes with code 1011 and the reason
`Error handling WebSocket connection: {exception}`. -/
def WebsocketServer.handle_websocket_connection (env : HubEnv)
    (workspace client_id token reconnection_token : Option String) :
    HandshakeOutcome :=
  match client_id with
  | none =>
    HandshakeOutcome.closed 1003
      { error := "Missing query parameters: client_id", success := false }
  | some cid =>
    match WebsocketServer.authenticate_user env token reconnection_token cid
        workspace with
    | Except.error e =>
      HandshakeOutcome.closed 1011
        { error := "Error handling WebSocket connection: " ++ e,
          success := false }
    | Except.ok (u, ws0) =>
      match (WebsocketServer.setup_workspace_and_permissions env u ws0).outcome with
      | Except.error e =>
        HandshakeOutcome.closed 1011
          { error := "Error handling WebSocket connection: " ++ e,
            success := false }
      | Except.ok ws =>
        match WebsocketServer.check_client env cid ws with
        | Except.error e =>
          HandshakeOutcome.closed 1011
            { error := "Error handling WebSocket connection: " ++ e,
              success := false }
        | Except.ok _ => HandshakeOutcome.success ws cid u

/-- Embedding of `parse_user` (`hypha/core/interface.py`, lines 22-45):
parse a truthy token (or synthesize an anonymous user), then reject the
result when its id is the reserved `root`. -/
def parse_user (env : HubEnv) (token : Option String) :
    Except String UserModel :=
  let step : Except String UserModel :=
    if pyTruthy token then env.parse_token (token.getD "")
    else Except.ok (anonymousUser env.freshId)
  match step with
  | Except.error e => Except.error e
  | Except.ok u =>
    if u.id = "root" then
      Except.error "Root user is not allowed to connect remotely"
    else
      Except.ok u

/-- Sample user for concrete witnesses. -/
def sampleUser : UserModel :=
  { id := "u-1", roles := [], is_anonymous := true }

/-- Sample freshly initialized connection bound to workspace `w` and
client `a`. -/
def sampleConn : RedisRPCConnection :=
  { workspace := "w", client_id := "a", user_info := sampleUser,
    stop := false, hasHandleMessage := false, subs := [],
    hasDisconnectHandler := false, disconnectCallbackFires := 0 }

/-- Sample inbound frame: header `{to: "b", x: 7}` with tail bytes
`0xFF 0xAA`. -/
def sampleFrame : Frame :=
  { header := [("to", MsgVal.str "b"), ("x", MsgVal.num 7)],
    tail := [255, 170] }

/-- Sample root user for concrete witnesses. -/
def rootUser : UserModel :=
  { id := "root", roles := ["admin"], is_anonymous := false }

/-- Sample anonymous user whose id is the reserved `*`. -/
def starUser : UserModel :=
  { id := "*", roles := [], is_anonymous := true }

/-- Concrete environment with no workspaces and permissive permission
checks. -/
def envNoWorkspaces : HubEnv :=
  { parse_reconnection_token := fun _ => Except.error "invalid reconnection token",
    parse_token := fun _ => Except.error "invalid token",
    freshId := "u-1",
    workspace_exists := fun _ => false,
    check_permission := fun _ _ => true,
    client_exists := fun _ _ => false,
    client_active := fun _ _ => false }

/-- Concrete environment where only the workspace `test` exists and
every permission check is refused. -/
def envTestOnly : HubEnv :=
  { parse_reconnection_token := fun _ => Except.error "invalid reconnection token",
    parse_token := fun _ => Except.error "invalid token",
    freshId := "anon-1",
    workspace_exists := fun w => w == "test",
    check_permission := fun _ _ => false,
    client_exists := fun _ _ => false,
    client_active := fun _ _ => false }

/-- Concrete environment whose reconnection tokens all parse to
`(sampleUser, "w", "c1")` and whose single workspace `w` is open. -/
def envRecon : HubEnv :=
  { parse_reconnection_token := fun _ => Except.ok (sampleUser, "w", "c1"),
    parse_token := fun _ => Except.error "invalid token",
    freshId := "anon-1",
    workspace_exists := fun w => w == "w",
    check_permission := fun _ _ => true,
    client_exists := fun _ _ => false,
    client_active := fun _ _ => false }

/-- Concrete environment whose access tokens all parse to the root
user. -/
def envRoot : HubEnv :=
  { parse_reconnection_token := fun _ => Except.error "invalid reconnection token",
    parse_token := fun _ => Except.ok rootUser,
    freshId := "anon-1",
    workspace_exists := fun _ => false,
    check_permission := fun _ _ => true,
    client_exists := fun _ _ => false,
    client_active := fun _ _ => false }

theorem string_mk_toList (s : String) : String.mk s.toList = s := by
  cases s
  rfl

theorem lookupKey_setKey_self (m : List (String × MsgVal)) (k : String)
    (v : MsgVal) : lookupKey (setKey m k v) k = some v := by
  induction m with
  | nil => simp [setKey, lookupKey]
  | cons p rest ih =>
    obtain ⟨k0, v0⟩ := p
    by_cases h : k0 = k
    · subst h
      simp [setKey, lookupKey]
    · simp [setKey, lookupKey, h, ih]

theorem lookupKey_setKey_other (m : List (String × MsgVal)) (k : String)
    (v : MsgVal) (k' : String) (h : k' ≠ k) :
    lookupKey (setKey m k v) k' = lookupKey m k' := by
  induction m with
  | nil => simp [setKey, lookupKey, Ne.symm h]
  | cons p rest ih =>
    obtain ⟨k0, v0⟩ := p
    by_cases h0 : k0 = k
    · subst h0
      simp [setKey, lookupKey, Ne.symm h]
    · simp [setKey, lookupKey, h0, ih]

theorem listHasPre_mem : ∀ {p l : List Char}, listHasPre p l = true →
    ∀ c ∈ p, c ∈ l := by
  intro p
  induction p with
  | nil =>
    intro l _ c hc
    simp at hc
  | cons a as ih =>
    intro l hp c hc
    cases l with
    | nil => simp [listHasPre] at hp
    | cons b bs =>
      simp only [listHasPre] at hp
      split at hp
      · next hab =>
        subst hab
        rcases List.mem_cons.mp hc with rfl | hc2
        · exact List.mem_cons_self _ _
        · exact List.mem_cons_of_mem _ (ih hp c hc2)
      · exact absurd hp (by simp)

theorem listInfixOf_mem : ∀ {l p : List Char}, listInfixOf p l = true →
    ∀ c ∈ p, c ∈ l := by
  intro l
  induction l with
  | nil =>
    intro p hp c hc
    simp only [listInfixOf, List.isEmpty_iff] at hp
    subst hp
    simp at hc
  | cons b bs ih =>
    intro p hp c hc
    simp only [listInfixOf, Bool.or_eq_true] at hp
    rcases hp with hp | hp
    · exact listHasPre_mem hp c hc
    · exact List.mem_cons_of_mem b (ih hp c hc)

theorem pySubstr_slash_false (t : String) (h : strHas t '/' = false) :
    pySubstr "/workspace-manager-" t = false := by
  cases hq : pySubstr "/workspace-manager-" t with
  | false => rfl
  | true =>
    exfalso
    simp only [pySubstr] at hq
    have hm : '/' ∈ t.toList := listInfixOf_mem hq '/' (by decide)
    have hn : ¬ ('/' ∈ t.toList) := by
      simpa [strHas, decide_eq_false_iff_not] using h
    exact hn hm

theorem emit_message_normalizes (conn : RedisRPCConnection) (f : Frame)
    (t : String) (hstop : conn.stop = false)
    (hto : lookupKey f.header "to" = some (MsgVal.str t)) :
    conn.emit_message (RpcData.bytesData f) =
      Except.ok (conn.publishRewritten (normalizeTarget conn.workspace t) f) := by
  cases hsl : strHas t '/' with
  | true =>
    simp [RedisRPCConnection.emit_message, hstop, hto, hsl, normalizeTarget]
  | false =>
    simp [RedisRPCConnection.emit_message, hstop, hto, hsl, normalizeTarget,
      pySubstr_slash_false t hsl]

/-- Claim C1: for every inbound frame accepted by
`RedisRPCConnection.emit_message` on a connection bound to workspace `W`
and client `C`, with header target `T`, the frame published on channel
`{normalized(T)}:msg` has `from = W/C`, `to = normalized(T)` (`T` when
it contains `/`, else `W/T`), `user` = the connection's user snapshot,
`ws` = `W` when `W ≠ "*"` and the workspace component of `T` when
`W = "*"`, all other header keys unchanged, and the bytes after the
header identical to the inbound bytes after the header. -/
theorem C1_emit_message_rewrite (conn : RedisRPCConnection) (f : Frame)
    (t : String) (hstop : conn.stop = false)
    (hto : lookupKey f.header "to" = some (MsgVal.str t)) :
    ∃ h' : List (String × MsgVal),
      conn.emit_message (RpcData.bytesData f) =
        Except.ok (normalizeTarget conn.workspace t ++ ":msg",
          { header := h', tail := f.tail }) ∧
      lookupKey h' "from" =
        some (MsgVal.str (conn.workspace ++ "/" ++ conn.client_id)) ∧
      lookupKey h' "to" =
        some (MsgVal.str (normalizeTarget conn.workspace t)) ∧
      lookupKey h' "user" = some (MsgVal.user conn.user_info) ∧
      (conn.workspace ≠ "*" →
        lookupKey h' "ws" = some (MsgVal.str conn.workspace)) ∧
      (conn.workspace = "*" → strHas t '/' = true →
        lookupKey h' "ws" =
          some (MsgVal.str ((t.splitOn "/").headD ""))) ∧
      (∀ k, k ≠ "ws" → k ≠ "to" → k ≠ "from" → k ≠ "user" →
        lookupKey h' k = lookupKey f.header k) := by
  have hok := emit_message_normalizes conn f t hstop hto
  refine ⟨((conn.publishRewritten (normalizeTarget conn.workspace t) f).2).header,
    ?_, ?_, ?_, ?_, ?_, ?_, ?_⟩
  · rw [hok]
    rfl
  · simp only [RedisRPCConnection.publishRewritten]
    rw [lookupKey_setKey_other _ _ _ _ (by decide : ("from" : String) ≠ "user"),
      lookupKey_setKey_self]
  · simp only [RedisRPCConnection.publishRewritten]
    rw [lookupKey_setKey_other _ _ _ _ (by decide : ("to" : String) ≠ "user"),
      lookupKey_setKey_other _ _ _ _ (by decide : ("to" : String) ≠ "from"),
      lookupKey_setKey_self]
  · simp only [RedisRPCConnection.publishRewritten]
    rw [lookupKey_setKey_self]
  · intro hw
    simp only [RedisRPCConnection.publishRewritten]
    rw [lookupKey_setKey_other _ _ _ _ (by decide : ("ws" : String) ≠ "user"),
      lookupKey_setKey_other _ _ _ _ (by decide : ("ws" : String) ≠ "from"),
      lookupKey_setKey_other _ _ _ _ (by decide : ("ws" : String) ≠ "to"),
      lookupKey_setKey_self, if_neg hw]
  · intro hw hsl
    simp only [RedisRPCConnection.publishRewritten]
    rw [lookupKey_setKey_other _ _ _ _ (by decide : ("ws" : String) ≠ "user"),
      lookupKey_setKey_other _ _ _ _ (by decide : ("ws" : String) ≠ "from"),
      lookupKey_setKey_other _ _ _ _ (by decide : ("ws" : String) ≠ "to"),
      lookupKey_setKey_self, if_pos hw]
    simp [normalizeTarget, hsl]
  · intro k h1 h2 h3 h4
    simp only [RedisRPCConnection.publishRewritten]
    rw [lookupKey_setKey_other _ _ _ _ h4, lookupKey_setKey_other _ _ _ _ h3,
      lookupKey_setKey_other _ _ _ _ h2, lookupKey_setKey_other _ _ _ _ h1]

/-- Witness for C1: the connection `(w, a)` forwarding the frame
`{to: "b", x: 7}` with tail `0xFF 0xAA`. -/
theorem C1_emit_message_rewrite_witness :
    sampleConn.stop = false ∧
    lookupKey sampleFrame.header "to" = some (MsgVal.str "b") ∧
    (∃ h' : List (String × MsgVal),
      sampleConn.emit_message (RpcData.bytesData sampleFrame) =
        Except.ok (normalizeTarget sampleConn.workspace "b" ++ ":msg",
          { header := h', tail := sampleFrame.tail }) ∧
      lookupKey h' "from" =
        some (MsgVal.str (sampleConn.workspace ++ "/" ++ sampleConn.client_id)) ∧
      lookupKey h' "to" =
        some (MsgVal.str (normalizeTarget sampleConn.workspace "b")) ∧
      lookupKey h' "user" = some (MsgVal.user sampleConn.user_info) ∧
      (sampleConn.workspace ≠ "*" →
        lookupKey h' "ws" = some (MsgVal.str sampleConn.workspace)) ∧
      (sampleConn.workspace = "*" → strHas "b" '/' = true →
        lookupKey h' "ws" =
          some (MsgVal.str ((("b" : String).splitOn "/").headD ""))) ∧
      (∀ k, k ≠ "ws" → k ≠ "to" → k ≠ "from" → k ≠ "user" →
        lookupKey h' k = lookupKey sampleFrame.header k)) :=
  ⟨rfl, by decide,
    C1_emit_message_rewrite sampleConn sampleFrame "b" rfl (by decide)⟩

/-- Claim C2 (code bug): a frame whose `to` has no `/` and contains
`workspace-manager-` is NOT rejected by `emit_message` — the guard
tests for the substring `/workspace-manager-` inside a branch where
`to` is known to contain no `/`, so it can never fire; the frame is
routed to `{W}/{to}:msg` instead of raising the invalid-target error. -/
theorem C2_workspace_manager_guard_dead :
    sampleConn.emit_message (RpcData.bytesData
      { header := [("to", MsgVal.str "workspace-manager-x")], tail := [1] }) =
    Except.ok ("w/workspace-manager-x:msg",
      { header := [("to", MsgVal.str "w/workspace-manager-x"),
                   ("ws", MsgVal.str "w"), ("from", MsgVal.str "w/a"),
                   ("user", MsgVal.user sampleUser)], tail := [1] }) := by
  rfl

theorem listHasPre_self_append (p r : List Char) :
    listHasPre p (p ++ r) = true := by
  induction p with
  | nil => rfl
  | cons a as ih => simp [listHasPre, ih]

theorem strPre_self_append (p n : String) : strPre p (p ++ n) = true :=
  listHasPre_self_append p.toList n.toList

theorem strDrop_append (p n : String) :
    strDropN (p ++ n) p.toList.length = n := by
  show String.mk ((p.toList ++ n.toList).drop p.toList.length) = n
  rw [List.drop_left]
  exact string_mk_toList n

theorem listHasPre_append_len : ∀ (p q r : List Char), p.length = q.length →
    listHasPre p (q ++ r) = true → p = q := by
  intro p
  induction p with
  | nil =>
    intro q r h _
    cases q with
    | nil => rfl
    | cons b bs => simp at h
  | cons a as ih =>
    intro q r h hp
    cases q with
    | nil => simp at h
    | cons b bs =>
      simp only [List.cons_append, listHasPre] at hp
      split at hp
      · next hab =>
        subst hab
        have hlen : as.length = bs.length := by simpa using h
        rw [ih bs r hlen hp]
      · exact absurd hp (by simp)

theorem strPre_append_ne (p q n : String) (hlen : p.toList.length = q.toList.length)
    (hne : p ≠ q) : strPre p (q ++ n) = false := by
  cases hq : strPre p (q ++ n) with
  | false => rfl
  | true =>
    exfalso
    have hl : p.toList = q.toList :=
      listHasPre_append_len p.toList q.toList n.toList hlen hq
    exact hne (by rw [← string_mk_toList p, hl, string_mk_toList])

theorem strDropN_eight (p n : String) (h : p.toList.length = 8) :
    strDropN (p ++ n) 8 = n := by
  rw [← h]
  exact strDrop_append p n

/-- Claim C3: for every broker message on channel `event:<kind>:<name>`
with kind in b/s/d the remote bus receives exactly one dispatch with the
kind-decoded payload, and for every dict, string or truthy bytes
payload `P`, `RedisEventBus.emit name P` publishes a broker message
which that dispatch decodes back to `(name, P)` (round trip). -/
theorem C3_event_bus_roundtrip (name : String) (P : EmitData)
    (hP : P.wellformed) :
    ∃ ch w, (RedisEventBus.emit name P).published = some (ch, w) ∧
      (RedisEventBus.emit name P).error = none ∧
      RedisEventBus.dispatch_redis_message ch w = some (name, P) := by
  cases P with
  | dict j =>
    refine ⟨"event:" ++ "d:" ++ name, WireData.jsonOf j, rfl, rfl, ?_⟩
    show RedisEventBus.dispatch_redis_message ("event:d:" ++ name)
      (WireData.jsonOf j) = some (name, EmitData.dict j)
    rw [RedisEventBus.dispatch_redis_message,
      strPre_append_ne "event:b:" "event:d:" name (by decide) (by decide),
      strPre_self_append "event:d:" name]
    simp [strDropN_eight "event:d:" name (by decide)]
  | str s =>
    refine ⟨"event:" ++ "s:" ++ name, WireData.utf8Of s, rfl, rfl, ?_⟩
    show RedisEventBus.dispatch_redis_message ("event:s:" ++ name)
      (WireData.utf8Of s) = some (name, EmitData.str s)
    rw [RedisEventBus.dispatch_redis_message,
      strPre_append_ne "event:b:" "event:s:" name (by decide) (by decide),
      strPre_append_ne "event:d:" "event:s:" name (by decide) (by decide),
      strPre_self_append "event:s:" name]
    simp [strDropN_eight "event:s:" name (by decide)]
  | bytes b =>
    have hb : b ≠ [] := hP
    refine ⟨"event:" ++ "b:" ++ name, WireData.raw b, ?_, ?_, ?_⟩
    · simp [RedisEventBus.emit, hb]
    · simp [RedisEventBus.emit, hb]
    · show RedisEventBus.dispatch_redis_message ("event:b:" ++ name)
        (WireData.raw b) = some (name, EmitData.bytes b)
      rw [RedisEventBus.dispatch_redis_message,
        strPre_self_append "event:b:" name]
      simp [strDropN_eight "event:b:" name (by decide)]
  | noneV => exact hP.elim

/-- Witness for C3: the string payload `hello` on event `heartbeat`. -/
theorem C3_event_bus_roundtrip_witness :
    (EmitData.str "hello").wellformed ∧
    (∃ ch w,
      (RedisEventBus.emit "heartbeat" (EmitData.str "hello")).published =
        some (ch, w) ∧
      (RedisEventBus.emit "heartbeat" (EmitData.str "hello")).error = none ∧
      RedisEventBus.dispatch_redis_message ch w =
        some ("heartbeat", EmitData.str "hello")) :=
  ⟨trivial, C3_event_bus_roundtrip "heartbeat" (EmitData.str "hello") trivial⟩

/-- Claim C9: `RedisEventBus.emit` trips its assertion on a falsy
payload that is neither a dict nor a str (the empty bytes and `None`)
and publishes nothing to the broker. -/
theorem C9_emit_rejects_falsy_bytes (name : String) (P : EmitData)
    (hP : P = EmitData.bytes [] ∨ P = EmitData.noneV) :
    (RedisEventBus.emit name P).error = some "Data must be a string or bytes" ∧
    (RedisEventBus.emit name P).published = none := by
  rcases hP with rfl | rfl
  · exact ⟨rfl, rfl⟩
  · exact ⟨rfl, rfl⟩

/-- Witness for C9: the empty bytes payload. -/
theorem C9_emit_rejects_falsy_bytes_witness :
    (EmitData.bytes [] = EmitData.bytes [] ∨ EmitData.bytes [] = EmitData.noneV) ∧
    (RedisEventBus.emit "ev" (EmitData.bytes [])).error =
      some "Data must be a string or bytes" ∧
    (RedisEventBus.emit "ev" (EmitData.bytes [])).published = none :=
  ⟨Or.inl rfl,
    (C9_emit_rejects_falsy_bytes "ev" (EmitData.bytes []) (Or.inl rfl)).1,
    (C9_emit_rejects_falsy_bytes "ev" (EmitData.bytes []) (Or.inl rfl)).2⟩

/-- Claim C10: `emit_message` asserts its argument is bytes before
anything else; a dict argument (despite the declared
`Union[dict, bytes]` signature) always raises the assertion error, even
on a closed connection, and nothing is parsed or published. -/
theorem C10_emit_message_requires_bytes (conn : RedisRPCConnection)
    (d : List (String × MsgVal)) :
    conn.emit_message (RpcData.dictData d) = Except.error "Data must be bytes" :=
  rfl

/-- Claim C4 (counterexample): calling `disconnect()` twice on a
connection with a registered disconnection callback fires the callback
twice — `disconnect` never clears `_disconnect_handler`, so the
callback does not fire exactly once when `disconnect` is called more
than once. -/
theorem C4_disconnect_twice_fires_callback_twice :
    ((((sampleConn.on_disconnected).on_message).disconnect).disconnect).disconnectCallbackFires = 2 ∧
    ¬ ((((sampleConn.on_disconnected).on_message).disconnect).disconnect).disconnectCallbackFires = 1 :=
  ⟨rfl, by decide⟩

/-- Claim C4 (amended): after `disconnect()` every `emit_message` of a
bytes frame fails with the closed-connection error, both channel
subscriptions are removed (and stay removed on a repeated call), and the
registered disconnection callback has fired once per `disconnect()`
call: exactly once after a single call, twice after two calls. -/
theorem C4_amended_disconnect (ws cid : String) (u : UserModel)
    (c : RedisRPCConnection)
    (hinit : RedisRPCConnection.init ws cid u = Except.ok c) (f : Frame) :
    (((c.on_disconnected).on_message).disconnect).emit_message
        (RpcData.bytesData f) =
      Except.error ("Connection has already been closed (client: " ++ ws ++
        "/" ++ cid ++ ")") ∧
    (((c.on_disconnected).on_message).disconnect).subs = [] ∧
    (((c.on_disconnected).on_message).disconnect).disconnectCallbackFires = 1 ∧
    ((((c.on_disconnected).on_message).disconnect).disconnect).subs = [] ∧
    ((((c.on_disconnected).on_message).disconnect).disconnect).disconnectCallbackFires = 2 := by
  rw [RedisRPCConnection.init] at hinit
  split at hinit
  · next hcond =>
    injection hinit with h
    subst h
    refine ⟨?_, ?_, rfl, ?_, rfl⟩
    · rfl
    · simp [RedisRPCConnection.on_disconnected, RedisRPCConnection.on_message,
        RedisRPCConnection.disconnect, List.filter]
    · simp [RedisRPCConnection.on_disconnected, RedisRPCConnection.on_message,
        RedisRPCConnection.disconnect, List.filter]
  · simp at hinit

/-- Witness for C4 (amended): the connection `(w, a)`. -/
theorem C4_amended_disconnect_witness :
    RedisRPCConnection.init "w" "a" sampleUser = Except.ok sampleConn ∧
    ((((sampleConn.on_disconnected).on_message).disconnect).emit_message
        (RpcData.bytesData sampleFrame) =
      Except.error ("Connection has already been closed (client: " ++ "w" ++
        "/" ++ "a" ++ ")") ∧
    (((sampleConn.on_disconnected).on_message).disconnect).subs = [] ∧
    (((sampleConn.on_disconnected).on_message).disconnect).disconnectCallbackFires = 1 ∧
    ((((sampleConn.on_disconnected).on_message).disconnect).disconnect).subs = [] ∧
    ((((sampleConn.on_disconnected).on_message).disconnect).disconnect).disconnectCallbackFires = 2) :=
  ⟨rfl,
    C4_amended_disconnect "w" "a" sampleUser sampleConn rfl sampleFrame⟩

/-- Claim C5 (counterexample): an anonymous user whose id is the
reserved `*`, with no requested workspace, defaults to workspace `*`
(which equals `user.id` and does not exist), yet no workspace is
created and the handshake fails — the endpoint asserts
`workspace != "*"` before the creation branch, refuting the stated
`created if and only if workspace == user.id`. -/
theorem C5_star_workspace_never_created :
    (WebsocketServer.setup_workspace_and_permissions envNoWorkspaces starUser none).created = none ∧
    (WebsocketServer.setup_workspace_and_permissions envNoWorkspaces starUser none).outcome =
      Except.error "Dynamic workspace is not allowed for this endpoint" ∧
    envNoWorkspaces.workspace_exists starUser.id = false ∧ starUser.id = "*" :=
  ⟨rfl, rfl, rfl, rfl⟩

/-- Claim C5 (amended): during the handshake, for a user whose id is
not the reserved `*`: an absent workspace defaults to `user.id`; when
the (defaulted) workspace does not exist it is registered if and only
if it equals `user.id`, with
`persistent = ¬is_anonymous ∧ temporary-test-user ∉ roles` and
`read_only = is_anonymous`; for any other non-existing name the
handshake fails. -/
theorem C5_amended_workspace_provisioning (env : HubEnv) (u : UserModel)
    (workspace : Option String) (hid : u.id ≠ "*") :
    (WebsocketServer.setup_workspace_and_permissions env u none =
       WebsocketServer.setup_workspace_and_permissions env u (some u.id)) ∧
    (env.workspace_exists (workspace.getD u.id) = false →
      (((WebsocketServer.setup_workspace_and_permissions env u workspace).created).isSome
          ↔ workspace.getD u.id = u.id) ∧
      (∀ reg,
        (WebsocketServer.setup_workspace_and_permissions env u workspace).created = some reg →
          reg.name = workspace.getD u.id ∧
          reg.persistent =
            (!u.is_anonymous && !(u.roles.contains "temporary-test-user")) ∧
          reg.read_only = u.is_anonymous ∧ reg.owners = [u.id]) ∧
      (workspace.getD u.id ≠ u.id → ∃ e,
        (WebsocketServer.setup_workspace_and_permissions env u workspace).outcome =
          Except.error e)) := by
  constructor
  · rfl
  · intro hex
    cases workspace with
    | none =>
      simp only [Option.getD] at hex ⊢
      by_cases hperm : env.check_permission u u.id = true
      · simp [WebsocketServer.setup_workspace_and_permissions, hid, hex, hperm]
      · simp [WebsocketServer.setup_workspace_and_permissions, hid, hex, hperm]
    | some w =>
      simp only [Option.getD] at hex ⊢
      by_cases hws : w = "*"
      · subst hws
        refine ⟨?_, ?_, ?_⟩
        · simp [WebsocketServer.setup_workspace_and_permissions, Ne.symm hid]
        · intro reg hreg
          simp [WebsocketServer.setup_workspace_and_permissions] at hreg
        · intro _
          exact ⟨"Dynamic workspace is not allowed for this endpoint",
            by simp [WebsocketServer.setup_workspace_and_permissions]⟩
      · by_cases heq : w = u.id
        · subst heq
          by_cases hperm : env.check_permission u u.id = true
          · simp [WebsocketServer.setup_workspace_and_permissions, hws, hex, hperm]
          · simp [WebsocketServer.setup_workspace_and_permissions, hws, hex, hperm]
        · refine ⟨?_, ?_, ?_⟩
          · simp [WebsocketServer.setup_workspace_and_permissions, hws, hex, heq]
          · intro reg hreg
            simp [WebsocketServer.setup_workspace_and_permissions, hws, hex, heq] at hreg
          · intro _
            exact ⟨"User can only connect to a pre-existing workspace or their own workspace",
              by simp [WebsocketServer.setup_workspace_and_permissions, hws, hex, heq]⟩

/-- Witness for C5 (amended): anonymous user `u-1`, no requested
workspace, empty store. -/
theorem C5_amended_workspace_provisioning_witness :
    sampleUser.id ≠ "*" ∧
    ((WebsocketServer.setup_workspace_and_permissions envNoWorkspaces sampleUser none =
       WebsocketServer.setup_workspace_and_permissions envNoWorkspaces sampleUser (some sampleUser.id)) ∧
    (envNoWorkspaces.workspace_exists ((none : Option String).getD sampleUser.id) = false →
      (((WebsocketServer.setup_workspace_and_permissions envNoWorkspaces sampleUser none).created).isSome
          ↔ (none : Option String).getD sampleUser.id = sampleUser.id) ∧
      (∀ reg,
        (WebsocketServer.setup_workspace_and_permissions envNoWorkspaces sampleUser none).created = some reg →
          reg.name = (none : Option String).getD sampleUser.id ∧
          reg.persistent =
            (!sampleUser.is_anonymous &&
              !(sampleUser.roles.contains "temporary-test-user")) ∧
          reg.read_only = sampleUser.is_anonymous ∧
          reg.owners = [sampleUser.id]) ∧
      ((none : Option String).getD sampleUser.id ≠ sampleUser.id → ∃ e,
        (WebsocketServer.setup_workspace_and_permissions envNoWorkspaces sampleUser none).outcome =
          Except.error e))) :=
  ⟨by decide,
    C5_amended_workspace_provisioning envNoWorkspaces sampleUser none (by decide)⟩

/-- Claim C6 (counterexample): the handshake `client_id=c1`,
`workspace=test` (existing, permission refused), no token, closes with
code 1011 but the error frame text is
`Error handling WebSocket connection: Permission denied for workspace: test`
— the exception text is wrapped by `handle_websocket_connection`, not
sent verbatim as the claim states. -/
theorem C6_error_frame_is_prefixed :
    WebsocketServer.handle_websocket_connection envTestOnly (some "test")
        (some "c1") none none =
      HandshakeOutcome.closed 1011
        { error := "Error handling WebSocket connection: Permission denied for workspace: test",
          success := false } ∧
    ("Error handling WebSocket connection: Permission denied for workspace: test" : String) ≠
      "Permission denied for workspace: test" :=
  ⟨rfl, by decide⟩

/-- Claim C6 (amended): for every handshake with client id `c1`,
workspace `test` pre-existing and not permitted to the (anonymous)
user, and no token: the handshake fails and the transport closes with
code 1011 and the error frame
`{"error": "Error handling WebSocket connection: Permission denied for workspace: test", "success": false}`. -/
theorem C6_amended_permission_denied (env : HubEnv)
    (hex : env.workspace_exists "test" = true)
    (hperm : env.check_permission (anonymousUser env.freshId) "test" = false) :
    WebsocketServer.handle_websocket_connection env (some "test") (some "c1")
        none none =
      HandshakeOutcome.closed 1011
        { error := "Error handling WebSocket connection: Permission denied for workspace: test",
          success := false } := by
  simp [WebsocketServer.handle_websocket_connection,
    WebsocketServer.authenticate_user, pyTruthy,
    WebsocketServer.setup_workspace_and_permissions, hex, hperm]

/-- Witness for C6 (amended): the concrete environment `envTestOnly`. -/
theorem C6_amended_permission_denied_witness :
    envTestOnly.workspace_exists "test" = true ∧
    envTestOnly.check_permission (anonymousUser envTestOnly.freshId) "test" = false ∧
    WebsocketServer.handle_websocket_connection envTestOnly (some "test")
        (some "c1") none none =
      HandshakeOutcome.closed 1011
        { error := "Error handling WebSocket connection: Permission denied for workspace: test",
          success := false } :=
  ⟨rfl, rfl, C6_amended_permission_denied envTestOnly rfl rfl⟩

/-- Claim C7 (counterexample): a reconnection token parsing to
`(sampleUser, "w", "c1")` together with the supplied workspace `""`
(which differs from `w`) does not fail the handshake: the empty string
is falsy, so the mismatch check is skipped and the handshake succeeds
with workspace `w`. -/
theorem C7_empty_workspace_mismatch_ignored :
    WebsocketServer.handle_websocket_connection envRecon (some "")
        (some "c1") none (some "r") =
      HandshakeOutcome.success "w" "c1" sampleUser ∧
    envRecon.parse_reconnection_token "r" = Except.ok (sampleUser, "w", "c1") ∧
    ("" : String) ≠ "w" :=
  ⟨rfl, rfl, by decide⟩

/-- Claim C7 (amended): for every handshake whose reconnection token
parses to `(user, ws', cid')`: a supplied non-empty workspace different
from `ws'` fails the handshake, a client id different from `cid'` fails
the handshake, and otherwise (workspace absent, empty — which Python
truthiness treats as not supplied — or equal to `ws'`) authentication
yields the token's user and effective workspace `ws'` with no access
token needed. -/
theorem C7_amended_reconnection (env : HubEnv) (r : String) (u : UserModel)
    (ws cid : String) (token workspace : Option String) (client_id : String)
    (hr : env.parse_reconnection_token r = Except.ok (u, ws, cid))
    (hrne : r ≠ "") :
    (∀ w, workspace = some w → w ≠ "" → w ≠ ws →
      ∃ e, WebsocketServer.authenticate_user env token (some r) client_id
        workspace = Except.error e) ∧
    (cid ≠ client_id →
      ∃ e, WebsocketServer.authenticate_user env token (some r) client_id
        workspace = Except.error e) ∧
    ((workspace = none ∨ workspace = some "" ∨ workspace = some ws) →
      cid = client_id →
      WebsocketServer.authenticate_user env token (some r) client_id
        workspace = Except.ok (u, some ws)) := by
  have htr : pyTruthy (some r) = true := by simp [pyTruthy, hrne]
  refine ⟨?_, ?_, ?_⟩
  · intro w hw hne hnews
    subst hw
    refine ⟨"Authentication error: Workspace mismatch, disconnecting", ?_⟩
    have hwt : pyTruthy (some w) = true := by simp [pyTruthy, hne]
    simp [WebsocketServer.authenticate_user, htr, hr, hwt, hnews]
  · intro hcid
    by_cases hmis :
        (pyTruthy workspace && !(workspace.getD "" == ws)) = true
    · refine ⟨"Authentication error: Workspace mismatch, disconnecting", ?_⟩
      simp [WebsocketServer.authenticate_user, htr, hr, hmis]
    · refine ⟨"Authentication error: Client id mismatch, disconnecting", ?_⟩
      simp [WebsocketServer.authenticate_user, htr, hr, hmis, hcid]
  · intro hws hcid
    subst hcid
    have hmis : (pyTruthy workspace && !(workspace.getD "" == ws)) = false := by
      rcases hws with rfl | rfl | rfl <;> simp [pyTruthy]
    simp [WebsocketServer.authenticate_user, htr, hr, hmis]

/-- Witness for C7 (amended): the concrete environment `envRecon` with
no supplied workspace. -/
theorem C7_amended_reconnection_witness :
    envRecon.parse_reconnection_token "r" = Except.ok (sampleUser, "w", "c1") ∧
    ("r" : String) ≠ "" ∧
    ((∀ w, (none : Option String) = some w → w ≠ "" → w ≠ "w" →
      ∃ e, WebsocketServer.authenticate_user envRecon none (some "r") "c1"
        none = Except.error e) ∧
    ("c1" ≠ "c1" →
      ∃ e, WebsocketServer.authenticate_user envRecon none (some "r") "c1"
        none = Except.error e) ∧
    (((none : Option String) = none ∨ (none : Option String) = some "" ∨
        (none : Option String) = some "w") →
      "c1" = "c1" →
      WebsocketServer.authenticate_user envRecon none (some "r") "c1"
        none = Except.ok (sampleUser, some "w"))) :=
  ⟨rfl, by decide,
    C7_amended_reconnection envRecon "r" sampleUser "w" "c1" none none "c1"
      rfl (by decide)⟩

/-- Claim C8 (code bug): on the remote websocket path a token that
resolves to the root user is NOT rejected.  `authenticate_user`
(`hypha/websocket.py`, line 153) calls `parse_token` directly and never
applies the root check, so a handshake whose token parses to the root
user completes and registers client `root/c1` — while `parse_user`
(`hypha/core/interface.py`), which other entry points use on the very
same token, raises the intended
`Root user is not allowed to connect remotely`. -/
theorem C8_root_enters_websocket_path :
    WebsocketServer.handle_websocket_connection envRoot none (some "c1")
        (some "tok") none =
      HandshakeOutcome.success "root" "c1" rootUser ∧
    parse_user envRoot (some "tok") =
      Except.error "Root user is not allowed to connect remotely" :=
  ⟨rfl, rfl⟩
